import Mathlib

/-!
Shallow embedding of `src/esparse/src/ast.rs`: the `Loc` location type, the
generic `SpanT` span type, and their operations, with `usize` arithmetic
modelled as natural numbers reduced modulo `2 ^ 64` wherever the source
performs machine addition.
-/

/-- The modulus of Rust's 64-bit `usize` arithmetic. -/
def USIZE : Nat := 2 ^ 64

/-- The largest representable `usize` value. -/
def UMAX : Nat := USIZE - 1

/-- A location in source code: 0-based byte index `pos`, 0-based line `row`,
0-based column `col` (each a `usize` value). Mirrors `struct Loc`. -/
structure Loc where
  pos : Nat
  row : Nat
  col : Nat
deriving DecidableEq, Repr

/-- `Loc::new(pos, row, col)`. -/
def Loc.new (pos row col : Nat) : Loc :=
  { pos := pos, row := row, col := col }

/-- `Loc::zero()`: the default location, all fields zero. -/
def Loc.zero : Loc :=
  { pos := 0, row := 0, col := 0 }

/-- `Loc::min(self, loc)`: `if self.pos <= loc.pos { self } else { loc }`. -/
def Loc.min (self loc : Loc) : Loc :=
  if self.pos ≤ loc.pos then self else loc

/-- `Loc::max(self, loc)`: `if self.pos >= loc.pos { self } else { loc }`. -/
def Loc.max (self loc : Loc) : Loc :=
  if self.pos ≥ loc.pos then self else loc

/-- A region of source code: a file name of type `F` and two locations.
Mirrors `struct SpanT<F>`. -/
structure SpanT (F : Type) where
  file_name : F
  start : Loc
  «end» : Loc
deriving DecidableEq, Repr

/-- `SpanT::new(file_name, start, end)`. -/
def SpanT.new {F : Type} (file_name : F) (start «end» : Loc) : SpanT F :=
  { file_name := file_name, start := start, «end» := «end» }

/-- `SpanT::empty(file_name, loc)`: a zero-width span at `loc`. -/
def SpanT.empty {F : Type} (file_name : F) (loc : Loc) : SpanT F :=
  SpanT.new file_name loc loc

/-- `SpanT::zero(file_name)`: a zero-width span at the default location. -/
def SpanT.zero {F : Type} (file_name : F) : SpanT F :=
  SpanT.new file_name Loc.zero Loc.zero

/-- `SpanT::extend_to_cover(self, span)`: keeps `self.file_name`, takes the
`Loc::min` of the starts and the `Loc::max` of the ends. -/
def SpanT.extend_to_cover {F : Type} (self other : SpanT F) : SpanT F :=
  { file_name := self.file_name
    start := self.start.min other.start
    «end» := self.«end».max other.«end» }

/-- `SpanT::with_file_name(&self, file_name)`: same locations, new file name
of a possibly different type. -/
def SpanT.with_file_name {F T : Type} (self : SpanT F) (file_name : T) : SpanT T :=
  { file_name := file_name, start := self.start, «end» := self.«end» }

/-- A reference-counted handle, modelling `std::rc::Rc`; the sharing itself is
a memory-level notion, so the model records only the held value. -/
structure Rc (α : Type) where
  val : α
deriving DecidableEq, Repr

/-- `Rc::new`. -/
def Rc.new {α : Type} (a : α) : Rc α :=
  { val := a }

/-- `str::to_owned`: copies a borrowed string slice into an owned `String`;
the text is unchanged, so on the text level this is the identity. -/
def strToOwned (s : String) : String := s

/-- `Span<'f> = SpanT<&'f str>`: a borrowed string slice is modelled by its
text. -/
abbrev RustSpan : Type := SpanT String

/-- `SpanRc = SpanT<Rc<String>>`. -/
abbrev SpanRc : Type := SpanT (Rc String)

/-- `Span::with_rc(&self)`: `SpanT::new(Rc::new(self.file_name.to_owned()),
self.start, self.end)`. -/
def SpanT.with_rc (self : RustSpan) : SpanRc :=
  SpanT.new (Rc.new (strToOwned self.file_name)) self.start self.«end»

/-- `Span::with_owned(&self)`: `SpanT::new(self.file_name.to_owned(),
self.start, self.end)`. -/
def SpanT.with_owned (self : RustSpan) : SpanT String :=
  SpanT.new (strToOwned self.file_name) self.start self.«end»

/-- `impl<F: fmt::Display> fmt::Display for SpanT<F>`: renders the span as a
string, with `fd` standing for `F`'s own `Display`. The `+ 1` on `usize`
wraps modulo `2 ^ 64` (release-mode Rust semantics). -/
def SpanT.display {F : Type} (fd : F → String) (self : SpanT F) : String :=
  if self.start.row = self.«end».row then
    if self.start.col = self.«end».col then
      fd self.file_name ++ ":" ++ toString ((self.start.row + 1) % USIZE)
        ++ "," ++ toString ((self.start.col + 1) % USIZE)
    else
      fd self.file_name ++ ":" ++ toString ((self.start.row + 1) % USIZE)
        ++ "," ++ toString ((self.start.col + 1) % USIZE)
        ++ "-" ++ toString ((self.«end».col + 1) % USIZE)
  else
    fd self.file_name ++ ":" ++ toString ((self.start.row + 1) % USIZE)
      ++ "," ++ toString ((self.start.col + 1) % USIZE)
      ++ "-" ++ toString ((self.«end».row + 1) % USIZE)
      ++ "," ++ toString ((self.«end».col + 1) % USIZE)

/-- Helper: the byte position of `Loc.min` is the numeric minimum. -/
theorem loc_min_pos (a b : Loc) : (a.min b).pos = min a.pos b.pos := by
  unfold Loc.min
  by_cases h : a.pos ≤ b.pos
  · rw [if_pos h, min_eq_left h]
  · rw [if_neg h, min_eq_right (le_of_not_le h)]

/-- Helper: the byte position of `Loc.max` is the numeric maximum. -/
theorem loc_max_pos (a b : Loc) : (a.max b).pos = max a.pos b.pos := by
  unfold Loc.max
  by_cases h : b.pos ≤ a.pos
  · rw [if_pos h, max_eq_left h]
  · rw [if_neg h, max_eq_right (le_of_not_le h)]

/-- Helper: the start of an extended span is the `Loc.min` of the starts. -/
theorem spanT_extend_start {F : Type} (s1 s2 : SpanT F) :
    (s1.extend_to_cover s2).start = s1.start.min s2.start := rfl

/-- Helper: the end of an extended span is the `Loc.max` of the ends. -/
theorem spanT_extend_end {F : Type} (s1 s2 : SpanT F) :
    (s1.extend_to_cover s2).«end» = s1.«end».max s2.«end» := rfl

/-- Claim C1: the `Display` rendering follows the three-case contract with
1-based line and column numbers (whenever the `+ 1` does not overflow), and
the three concrete example spans over file `a.js` render as stated. -/
theorem display_three_case_contract :
    (∀ s : RustSpan,
      s.start.row + 1 < USIZE → s.start.col + 1 < USIZE →
      s.«end».row + 1 < USIZE → s.«end».col + 1 < USIZE →
      ((s.start.row = s.«end».row → s.start.col = s.«end».col →
          s.display id = s.file_name ++ ":" ++ toString (s.start.row + 1)
            ++ "," ++ toString (s.start.col + 1)) ∧
        (s.start.row = s.«end».row → s.start.col ≠ s.«end».col →
          s.display id = s.file_name ++ ":" ++ toString (s.start.row + 1)
            ++ "," ++ toString (s.start.col + 1) ++ "-" ++ toString (s.«end».col + 1)) ∧
        (s.start.row ≠ s.«end».row →
          s.display id = s.file_name ++ ":" ++ toString (s.start.row + 1)
            ++ "," ++ toString (s.start.col + 1) ++ "-" ++ toString (s.«end».row + 1)
            ++ "," ++ toString (s.«end».col + 1)))) ∧
    (SpanT.new ("a.js") (Loc.new 5 2 3) (Loc.new 8 2 6)).display id = "a.js:3,4-7" ∧
    (SpanT.new ("a.js") (Loc.new 5 2 3) (Loc.new 5 2 3)).display id = "a.js:3,4" ∧
    (SpanT.new ("a.js") (Loc.new 5 2 3) (Loc.new 20 4 1)).display id = "a.js:3,4-5,2" := by
  refine ⟨?_, by decide, by decide, by decide⟩
  intro s h1 h2 h3 h4
  refine ⟨fun hr hc => ?_, fun hr hc => ?_, fun hr => ?_⟩
  · unfold SpanT.display
    rw [if_pos hr, if_pos hc]
    simp [Nat.mod_eq_of_lt h1, Nat.mod_eq_of_lt h2]
  · unfold SpanT.display
    rw [if_pos hr, if_neg hc]
    simp [Nat.mod_eq_of_lt h1, Nat.mod_eq_of_lt h2, Nat.mod_eq_of_lt h4]
  · unfold SpanT.display
    rw [if_neg hr]
    simp [Nat.mod_eq_of_lt h1, Nat.mod_eq_of_lt h2, Nat.mod_eq_of_lt h3,
      Nat.mod_eq_of_lt h4]

/-- Witness for C1: the single-point case evaluated at a concrete span. -/
theorem display_three_case_contract_witness :
    (SpanT.new ("b.js") (Loc.new 7 1 2) (Loc.new 7 1 2)).display id
      = ("b.js") ++ ":" ++ toString (1 + 1) ++ "," ++ toString (2 + 1) :=
  (display_three_case_contract.1 (SpanT.new ("b.js") (Loc.new 7 1 2) (Loc.new 7 1 2))
    (by decide) (by decide) (by decide) (by decide)).1 rfl rfl

/-- Claim C2: `extend_to_cover` keeps the left operand's `file_name`, takes
`Loc.min` of the starts and `Loc.max` of the ends, so the resulting byte
positions are the numeric min of the start positions and the numeric max of
the end positions. -/
theorem extend_to_cover_spec {F : Type} (s1 s2 : SpanT F) :
    (s1.extend_to_cover s2).file_name = s1.file_name ∧
    (s1.extend_to_cover s2).start = s1.start.min s2.start ∧
    (s1.extend_to_cover s2).«end» = s1.«end».max s2.«end» ∧
    (s1.extend_to_cover s2).start.pos = min s1.start.pos s2.start.pos ∧
    (s1.extend_to_cover s2).«end».pos = max s1.«end».pos s2.«end».pos :=
  ⟨rfl, rfl, rfl, loc_min_pos _ _, loc_max_pos _ _⟩

/-- Claim C3: `Loc.min` and `Loc.max` select between the two inputs by `pos`,
returning `self` on a tie; their positions are ordered and form the pair of
the input positions, and each result is one of the two inputs unchanged. -/
theorem loc_min_max_selection (a b : Loc) :
    (a.pos < b.pos → a.min b = a ∧ a.max b = b) ∧
    (b.pos < a.pos → a.min b = b ∧ a.max b = a) ∧
    (a.pos = b.pos → a.min b = a ∧ a.max b = a) ∧
    (a.min b).pos ≤ (a.max b).pos ∧
    (a.min b = a ∨ a.min b = b) ∧
    (a.max b = a ∨ a.max b = b) ∧
    (((a.min b).pos = a.pos ∧ (a.max b).pos = b.pos) ∨
      ((a.min b).pos = b.pos ∧ (a.max b).pos = a.pos)) := by
  unfold Loc.min Loc.max
  by_cases h1 : a.pos ≤ b.pos <;> by_cases h2 : a.pos ≥ b.pos
  · rw [if_pos h1, if_pos h2]
    exact ⟨fun h => absurd h (by omega), fun h => absurd h (by omega),
      fun _ => ⟨rfl, rfl⟩, le_refl _, Or.inl rfl, Or.inl rfl, Or.inl ⟨rfl, by omega⟩⟩
  · rw [if_pos h1, if_neg h2]
    exact ⟨fun _ => ⟨rfl, rfl⟩, fun h => absurd h (by omega),
      fun h => absurd h (by omega), h1, Or.inl rfl, Or.inr rfl, Or.inl ⟨rfl, rfl⟩⟩
  · rw [if_neg h1, if_pos h2]
    exact ⟨fun h => absurd h (by omega), fun _ => ⟨rfl, rfl⟩,
      fun h => absurd h (by omega), h2, Or.inr rfl, Or.inl rfl, Or.inr ⟨rfl, rfl⟩⟩
  · exact absurd (le_of_not_le h1) h2

/-- Witness for C3: the strict-less case evaluated at two concrete locations. -/
theorem loc_min_max_selection_witness :
    (Loc.new 1 0 0).min (Loc.new 2 0 0) = Loc.new 1 0 0 ∧
    (Loc.new 1 0 0).max (Loc.new 2 0 0) = Loc.new 2 0 0 :=
  (loc_min_max_selection (Loc.new 1 0 0) (Loc.new 2 0 0)).1 (by decide)

/-- Claim C4: every core operation is a total function; in particular the
rendering always produces a nonempty string, and every operation is defined
and yields the expected value at the maximum representable `usize` inputs. -/
theorem core_ops_total :
    (∀ s : RustSpan, 0 < (s.display id).length) ∧
    (SpanT.new ("f") (Loc.new UMAX UMAX UMAX) (Loc.new UMAX UMAX UMAX)).display id
      = "f:0,0" ∧
    (Loc.new UMAX UMAX UMAX).min Loc.zero = Loc.zero ∧
    (Loc.new UMAX UMAX UMAX).max Loc.zero = Loc.new UMAX UMAX UMAX ∧
    (SpanT.new ("f") (Loc.new UMAX UMAX UMAX) (Loc.new UMAX UMAX UMAX)).extend_to_cover
        (SpanT.zero ("f"))
      = SpanT.new ("f") Loc.zero (Loc.new UMAX UMAX UMAX) ∧
    (SpanT.new ("f") (Loc.new UMAX UMAX UMAX) (Loc.new UMAX UMAX UMAX)).with_rc
      = SpanT.new (Rc.new ("f")) (Loc.new UMAX UMAX UMAX) (Loc.new UMAX UMAX UMAX) ∧
    (SpanT.new ("f") (Loc.new UMAX UMAX UMAX) (Loc.new UMAX UMAX UMAX)).with_owned
      = SpanT.new ("f") (Loc.new UMAX UMAX UMAX) (Loc.new UMAX UMAX UMAX) ∧
    (SpanT.empty ("f") (Loc.new UMAX UMAX UMAX)).with_file_name (42 : Nat)
      = SpanT.new 42 (Loc.new UMAX UMAX UMAX) (Loc.new UMAX UMAX UMAX) ∧
    SpanT.zero ("f") = SpanT.new ("f") (Loc.new 0 0 0) (Loc.new 0 0 0) := by
  refine ⟨?_, by decide, by decide, by decide, by decide, rfl, rfl, rfl, rfl⟩
  intro s
  have hcolon : (":").length = 1 := rfl
  unfold SpanT.display
  split
  · split
    · simp only [String.length_append]
      omega
    · simp only [String.length_append]
      omega
  · simp only [String.length_append]
    omega

/-- Claim C5: `extend_to_cover` is commutative and associative on the
positions of the resulting start and end, while the retained `file_name` is
always the left operand's. -/
theorem extend_to_cover_comm_assoc {F : Type} (s1 s2 s3 : SpanT F) :
    (s1.extend_to_cover s2).start.pos = (s2.extend_to_cover s1).start.pos ∧
    (s1.extend_to_cover s2).«end».pos = (s2.extend_to_cover s1).«end».pos ∧
    ((s1.extend_to_cover s2).extend_to_cover s3).start.pos
      = (s1.extend_to_cover (s2.extend_to_cover s3)).start.pos ∧
    ((s1.extend_to_cover s2).extend_to_cover s3).«end».pos
      = (s1.extend_to_cover (s2.extend_to_cover s3)).«end».pos ∧
    (s1.extend_to_cover s2).file_name = s1.file_name ∧
    ((s1.extend_to_cover s2).extend_to_cover s3).file_name = s1.file_name ∧
    (s1.extend_to_cover (s2.extend_to_cover s3)).file_name = s1.file_name := by
  simp only [spanT_extend_start, spanT_extend_end, loc_min_pos, loc_max_pos]
  exact ⟨min_comm _ _, max_comm _ _, min_assoc _ _ _, max_assoc _ _ _, rfl, rfl, rfl⟩

/-- Claim C6: `extend_to_cover` preserves well-formedness: if both operands
have `start.pos ≤ end.pos`, so does the result. -/
theorem extend_to_cover_preserves_wf {F : Type} (s1 s2 : SpanT F)
    (h1 : s1.start.pos ≤ s1.«end».pos) (h2 : s2.start.pos ≤ s2.«end».pos) :
    (s1.extend_to_cover s2).start.pos ≤ (s1.extend_to_cover s2).«end».pos := by
  simp only [spanT_extend_start, spanT_extend_end, loc_min_pos, loc_max_pos]
  exact le_trans (min_le_left _ _) (le_trans h1 (le_max_left _ _))

/-- Witness for C6: two concrete well-formed spans stay well-formed. -/
theorem extend_to_cover_preserves_wf_witness :
    ((SpanT.new ("a.js") (Loc.new 1 0 1) (Loc.new 4 0 4)).extend_to_cover
      (SpanT.new ("a.js") (Loc.new 2 0 2) (Loc.new 9 1 0))).start.pos
    ≤ ((SpanT.new ("a.js") (Loc.new 1 0 1) (Loc.new 4 0 4)).extend_to_cover
      (SpanT.new ("a.js") (Loc.new 2 0 2) (Loc.new 9 1 0))).«end».pos :=
  extend_to_cover_preserves_wf
    (SpanT.new ("a.js") (Loc.new 1 0 1) (Loc.new 4 0 4))
    (SpanT.new ("a.js") (Loc.new 2 0 2) (Loc.new 9 1 0)) (by decide) (by decide)

/-- Claim C7: self-union is idempotent: extending a span to cover itself
returns the span unchanged, componentwise. -/
theorem extend_to_cover_self_idempotent {F : Type} (s : SpanT F) :
    s.extend_to_cover s = s := by
  cases s with
  | mk f a b => simp [SpanT.extend_to_cover, Loc.min, Loc.max]

/-- Claim C8: `with_owned` and `with_rc` keep the borrowed file-name text
identical and copy `start` and `end` verbatim. -/
theorem with_owned_with_rc_roundtrip (s : RustSpan) :
    s.with_owned.file_name = s.file_name ∧
    (s.with_rc).file_name.val = s.file_name ∧
    s.with_owned.start = s.start ∧ s.with_owned.«end» = s.«end» ∧
    (s.with_rc).start = s.start ∧ (s.with_rc).«end» = s.«end» :=
  ⟨rfl, rfl, rfl, rfl, rfl, rfl⟩

/-- Claim C9: the rendering never inspects `pos`: a span whose endpoints share
row and column but differ in `pos` still renders as the single-point form,
exactly as the zero-width span at its start does. -/
theorem display_ignores_pos (s : RustSpan)
    (hr : s.start.row = s.«end».row) (hc : s.start.col = s.«end».col)
    (hp : s.start.pos ≠ s.«end».pos) :
    s.display id = s.file_name ++ ":" ++ toString ((s.start.row + 1) % USIZE)
      ++ "," ++ toString ((s.start.col + 1) % USIZE) ∧
    s.display id = (SpanT.empty s.file_name s.start).display id := by
  constructor
  · simp [SpanT.display, hr, hc]
  · simp [SpanT.display, SpanT.empty, SpanT.new, hr, hc]

/-- Witness for C9: a width-4 span whose endpoints share row and column. -/
theorem display_ignores_pos_witness :
    (SpanT.new ("a.js") (Loc.new 5 2 3) (Loc.new 9 2 3)).display id
      = ("a.js") ++ ":" ++ toString ((2 + 1) % USIZE) ++ ","
        ++ toString ((3 + 1) % USIZE) ∧
    (SpanT.new ("a.js") (Loc.new 5 2 3) (Loc.new 9 2 3)).display id
      = (SpanT.empty ("a.js") (Loc.new 5 2 3)).display id :=
  display_ignores_pos (SpanT.new ("a.js") (Loc.new 5 2 3) (Loc.new 9 2 3))
    rfl rfl (by decide)

/-- Claim C10: the displayed numbers are computed modulo `2 ^ 64`: a span
whose `start.row` is the maximum `usize` value renders its line number as 0,
not as the mathematical `row + 1`. -/
theorem display_row_wraps_at_usize_max (s : RustSpan)
    (hmax : s.start.row = UMAX) (hr : s.start.row = s.«end».row)
    (hc : s.start.col = s.«end».col) (hcol : s.start.col + 1 < USIZE) :
    s.display id = s.file_name ++ ":" ++ "0" ++ "," ++ toString (s.start.col + 1) := by
  unfold SpanT.display
  rw [if_pos hr, if_pos hc, hmax]
  have h0 : (UMAX + 1) % USIZE = 0 := by decide
  have ht : toString (0 : Nat) = "0" := rfl
  rw [h0, ht]
  simp [Nat.mod_eq_of_lt hcol]

/-- Witness for C10: a concrete span at the maximal row renders line 0. -/
theorem display_row_wraps_at_usize_max_witness :
    (SpanT.new ("a.js") (Loc.new 0 UMAX 0) (Loc.new 0 UMAX 0)).display id
      = ("a.js") ++ ":" ++ "0" ++ "," ++ toString (0 + 1) :=
  display_row_wraps_at_usize_max
    (SpanT.new ("a.js") (Loc.new 0 UMAX 0) (Loc.new 0 UMAX 0))
    rfl rfl rfl (by decide)
